import Mathlib

/-!
Verification of the `rpg-attributes` library (Roblox-TS / Fusion).

The development shallowly embeds the two sibling modules of the repository:

* `Shared` — the pure helpers in `src/shared/attribute-utilities.ts`
  together with the constants of `src/shared/attribute-constants.ts`
  and the catalog of `src/shared/attribute-catalog.ts`;
* `Compact` — `src/compact-core.ts`: the standalone pure helpers and the
  reactive `AttributeManager` class.

TypeScript `number` is embedded as `Int` (all attribute arithmetic in the
source is integer-valued game stats).  Partial records (`Partial<...>`) are
embedded with `Option` fields.  The Fusion reactive layer (`Value`,
`Computed`, `Observer`) is embedded by explicit state passing: a manager is
a record of the fifteen numeric cells plus the observer bookkeeping, and
every cell write returns the next manager together with the list of
notification events the synchronous Fusion propagation emits.
-/

namespace RpgAttributes

/-- The five canonical attribute identifiers (`ATTRIBUTE_KEYS`). -/
inductive AttributeKey where
  | vitality
  | strength
  | agility
  | intellect
  | luck
deriving DecidableEq, Repr

/-- Embeds `ATTRIBUTE_KEYS` — the fixed iteration list over the five keys. -/
def ATTRIBUTE_KEYS : List AttributeKey :=
  [.vitality, .strength, .agility, .intellect, .luck]

/-- Embeds `AttributeMeta`: display metadata for one attribute. -/
structure AttributeMeta where
  displayName : String
  description : String
  icon : String
  tooltip : Option String
deriving DecidableEq, Repr

/-- Embeds `AttributeValues`: the three numeric fields of one attribute. -/
structure AttributeValues where
  baseValue : Int
  equipmentBonus : Int
  effectBonus : Int
deriving DecidableEq, Repr

/-- Embeds `Partial<AttributeValues>`: each field optionally present. -/
structure PartialValues where
  baseValue : Option Int
  equipmentBonus : Option Int
  effectBonus : Option Int
deriving DecidableEq, Repr

/-- The partial record with no field present (an absent argument). -/
def PartialValues.empty : PartialValues := ⟨none, none, none⟩

/-- View a full `AttributeValues` as a partial record with every field
present — the shape `exportData()` hands to `loadData()`. -/
def AttributeValues.toPartial (v : AttributeValues) : PartialValues :=
  ⟨some v.baseValue, some v.equipmentBonus, some v.effectBonus⟩

namespace Shared

/-- Embeds `AttributeIconMap` of `attribute-constants.ts`. -/
def AttributeIconMap : AttributeKey → String
  | .vitality => "rbxassetid://121291227474039"
  | .strength => "rbxassetid://127745571044516"
  | .agility => "rbxassetid://73893872719367"
  | .intellect => "rbxassetid://107600003376684"
  | .luck => "rbxassetid://114767496083209"

/-- Embeds `DefaultAttributeValues` of `attribute-constants.ts`. -/
def DefaultAttributeValues : AttributeValues := ⟨10, 2, 2⟩

/-- Embeds `AttributeCatalog` of `attribute-catalog.ts`. -/
def AttributeCatalog : AttributeKey → AttributeMeta
  | .vitality =>
      ⟨"Vitality", "Increases maximum health points.", AttributeIconMap .vitality,
        some "Each point of Vitality increases your maximum HP, making you more resilient in combat."⟩
  | .strength =>
      ⟨"Strength", "Increases physical damage dealt.", AttributeIconMap .strength,
        some "Higher Strength enhances your melee and physical weapon damage output."⟩
  | .agility =>
      ⟨"Agility", "Increases accuracy and evasion.", AttributeIconMap .agility,
        some "Agility improves your hit chance, dodge rate, and movement speed in combat."⟩
  | .intellect =>
      ⟨"Intellect", "Increases magic damage dealt.", AttributeIconMap .intellect,
        some "Intellect boosts your magical damage and may increase mana pool or spell effectiveness."⟩
  | .luck =>
      ⟨"Luck", "Increases chance for critical hits.", AttributeIconMap .luck,
        some "Luck influences critical hit chance, rare item drops, and other random events."⟩

/-- Embeds `calculateTotalAttributeValue(values)` of `attribute-utilities.ts`. -/
def calculateTotalAttributeValue (values : AttributeValues) : Int :=
  values.baseValue + values.equipmentBonus + values.effectBonus

/-- Embeds `createAttributeValues(overrides?)`: spread of `DefaultAttributeValues`
under the caller's partial overrides (override fields win). -/
def createAttributeValues (overrides : PartialValues) : AttributeValues :=
  ⟨overrides.baseValue.getD DefaultAttributeValues.baseValue,
   overrides.equipmentBonus.getD DefaultAttributeValues.equipmentBonus,
   overrides.effectBonus.getD DefaultAttributeValues.effectBonus⟩

/-- Embeds `isValidAttributeKey(key)` of `attribute-utilities.ts` (string test). -/
def isValidAttributeKey (key : String) : Bool :=
  key == "vitality" || key == "strength" || key == "agility" ||
    key == "intellect" || key == "luck"

/-- One entry of the shared `AttributesState` mapping. -/
structure AttributeEntry where
  meta : AttributeMeta
  values : AttributeValues
  totalValue : Int
deriving DecidableEq, Repr

/-- The shared `AttributesState`: a total mapping over the five keys. -/
def AttributesState := AttributeKey → AttributeEntry

/-- Embeds `createAttributeEntry(key, values?)` of `attribute-utilities.ts`. -/
def createAttributeEntry (key : AttributeKey) (values : PartialValues) :
    AttributeEntry :=
  let attributeValues := createAttributeValues values
  ⟨AttributeCatalog key, attributeValues,
    calculateTotalAttributeValue attributeValues⟩

/-- Embeds `createAttributesState(overrides?)`: one entry per canonical key. -/
def createAttributesState
    (overrides : AttributeKey → Option PartialValues) : AttributesState :=
  fun key => createAttributeEntry key ((overrides key).getD PartialValues.empty)

/-- Embeds `updateAttributeEntry(currentState, key, newValues)`: spread-merges
`newValues` over the existing entry's values, recomputes the total and
returns a new entry; `currentState` itself is not written to. -/
def updateAttributeEntry (currentState : AttributesState)
    (key : AttributeKey) (newValues : PartialValues) : AttributeEntry :=
  let updatedValues : AttributeValues :=
    ⟨newValues.baseValue.getD (currentState key).values.baseValue,
     newValues.equipmentBonus.getD (currentState key).values.equipmentBonus,
     newValues.effectBonus.getD (currentState key).values.effectBonus⟩
  ⟨(currentState key).meta, updatedValues,
    calculateTotalAttributeValue updatedValues⟩

/-- Embeds `getAttributeIcon(key)`. -/
def getAttributeIcon (key : AttributeKey) : String := AttributeIconMap key

/-- Embeds `getAttributeMeta(key)`. -/
def getAttributeMeta (key : AttributeKey) : AttributeMeta := AttributeCatalog key

/-- Embeds `clampAttributeValue(value, min = 0, max = 999)`:
`math.max(min, math.min(max, value))`.  The defaults of the source are
supplied explicitly by every caller modelled here. -/
def clampAttributeValue (value lo hi : Int) : Int :=
  max lo (min hi value)

end Shared

namespace Compact

/-- Embeds `AttributeCatalog` of `compact-core.ts` (a second copy with its own
wording and a different icon for `luck`). -/
def AttributeCatalog : AttributeKey → AttributeMeta
  | .vitality =>
      ⟨"Vitality", "Increases maximum health points.", "rbxassetid://121291227474039",
        some "Higher vitality means more health and survivability"⟩
  | .strength =>
      ⟨"Strength", "Increases physical damage output.", "rbxassetid://127745571044516",
        some "Higher strength means more damage with melee weapons"⟩
  | .agility =>
      ⟨"Agility", "Increases movement speed and dodge chance.", "rbxassetid://73893872719367",
        some "Higher agility means faster movement and better evasion"⟩
  | .intellect =>
      ⟨"Intellect", "Increases mana pool and spell damage.", "rbxassetid://107600003376684",
        some "Higher intellect means more mana and stronger spells"⟩
  | .luck =>
      ⟨"Luck", "Increases critical hit chance and rare item drops.", "rbxassetid://134567890123456",
        some "Higher luck means better chances for critical hits and rare loot"⟩

/-- Embeds `calculateTotal(values)` of `compact-core.ts`. -/
def calculateTotal (values : AttributeValues) : Int :=
  values.baseValue + values.equipmentBonus + values.effectBonus

/-- Embeds `createValues(overrides?)` of `compact-core.ts`: spread of the all-zero
default record under the caller's overrides. -/
def createValues (overrides : PartialValues) : AttributeValues :=
  ⟨overrides.baseValue.getD 0, overrides.equipmentBonus.getD 0,
   overrides.effectBonus.getD 0⟩

/-- One entry of the compact `AttributesState` (`meta` is optional there,
and `createState` always fills it with the catalog record). -/
structure StateEntry where
  meta : Option AttributeMeta
  values : AttributeValues
  totalValue : Int
deriving DecidableEq, Repr

/-- Embeds `createState(overrides?)` of `compact-core.ts`. -/
def createState (overrides : AttributeKey → Option PartialValues) :
    AttributeKey → StateEntry :=
  fun key =>
    let values := createValues ((overrides key).getD PartialValues.empty)
    ⟨some (AttributeCatalog key), values, calculateTotal values⟩

/-- Embeds `isValidKey(key)` of `compact-core.ts`: membership in `ATTRIBUTE_KEYS`. -/
def isValidKey (key : String) : Bool :=
  ["vitality", "strength", "agility", "intellect", "luck"].contains key

/-- Embeds `clamp(value, min = 0, max = 9999)` of `compact-core.ts`:
`math.max(min, math.min(max, value))`. -/
def clamp (value lo hi : Int) : Int :=
  max lo (min hi value)

/-- Embeds `AttributeManagerConfig` after the constructor filled in the defaults
(`Required<AttributeManagerConfig>`): every field present. -/
structure AttributeManagerConfig where
  initialValues : AttributeKey → Option Int
  autoPersist : Bool
  maxValue : Int
  minValue : Int

/-- The observable effects of one cell write, as emitted by the observers
installed in `setupObservers` (the subclass hooks `onAttributeChanged` and
`persistState`). -/
inductive Event where
  | attributeChanged (key : AttributeKey) (oldValue newValue : Int)
  | persisted
deriving DecidableEq, Repr

/-- The state of one `AttributeManager` instance.

Fusion's `Value` cells are the three numeric fields per key.  The
`Computed` total is a derived function (`Manager.total`), not stored.
Each key's `Observer` is embedded by:

* `prev k` — the mutable `prev` variable captured by that key's
  `onChange` closure in `setupObservers` (initialised to the total at
  subscription time, overwritten after each notification);
* `connected k` — whether the `onChange` subscription is still attached
  to the total cell.  `observer.onChange(...)` returns a disconnect
  function which `compact-core.ts` never stores or calls, so no code
  path ever sets this to `false`;
* `observers` — the manager's own `observers: Observer[]` array, which
  only `destroy()` touches (it clears the array and nothing else).

`validate` is the abstract subclass hook, a predicate of key and value
(its TS signature); it is fixed per instance like a vtable entry. -/
structure Manager where
  config : AttributeManagerConfig
  validate : AttributeKey → Int → Bool
  baseValue : AttributeKey → Int
  equipmentBonus : AttributeKey → Int
  effectBonus : AttributeKey → Int
  prev : AttributeKey → Int
  connected : AttributeKey → Bool
  observers : List AttributeKey

/-- The `totalValue` `Computed` of key `k`:
`clamp(base + equipment + effect, minValue, maxValue)`. -/
def Manager.total (m : Manager) (k : AttributeKey) : Int :=
  clamp (m.baseValue k + m.equipmentBonus k + m.effectBonus k)
    m.config.minValue m.config.maxValue

/-- Embeds `getValue(key)`: reads the derived total. -/
def Manager.getValue (m : Manager) (k : AttributeKey) : Int := m.total k

/-- The constructor plus `initializeStates`/`setupObservers`:
each base cell holds `config.initialValues[key] ?? 0` directly (no
validation, no clamping); bonus cells start at 0; every key's observer is
subscribed with `prev` initialised to the current total; the `observers`
array holds one observer per key. -/
def mkManager (config : AttributeManagerConfig)
    (validate : AttributeKey → Int → Bool) : Manager :=
  let base : AttributeKey → Int := fun k => (config.initialValues k).getD 0
  { config := config
    validate := validate
    baseValue := base
    equipmentBonus := fun _ => 0
    effectBonus := fun _ => 0
    prev := fun k => clamp (base k + 0 + 0) config.minValue config.maxValue
    connected := fun _ => true
    observers := ATTRIBUTE_KEYS }

/-- Synchronous Fusion propagation after a write to one of key `k`'s value
cells: the `Computed` total recomputes and, exactly when its value differs
from the cached previous value, notifies its dependents; the observer's
`onChange` callback then reads the current total, fires
`onAttributeChanged(key, prev, curr)`, updates `prev`, and calls
`persistState()` when `autoPersist` is set.  `update` is the raw cell
write; `oldTotal` is the cached total before the write. -/
def propagate (m : Manager) (k : AttributeKey) (update : Manager → Manager) :
    Manager × List Event :=
  let oldTotal := m.total k
  let m1 := update m
  let curr := m1.total k
  if m1.connected k ∧ curr ≠ oldTotal then
    ({ m1 with prev := fun j => if j = k then curr else m1.prev j },
      Event.attributeChanged k (m1.prev k) curr ::
        (if m1.config.autoPersist then [Event.persisted] else []))
  else (m1, [])

/-- Embeds `setBase(key, value)`: validate, then store the clamped value into the
base cell. -/
def Manager.setBase (m : Manager) (k : AttributeKey) (value : Int) :
    Bool × Manager × List Event :=
  if m.validate k value then
    let r := propagate m k (fun mm =>
      { mm with baseValue := fun j =>
          if j = k then clamp value mm.config.minValue mm.config.maxValue
          else mm.baseValue j })
    (true, r.1, r.2)
  else (false, m, [])

/-- Embeds `setEquipment(key, value)`: validate, then store the value (unclamped)
into the equipment cell. -/
def Manager.setEquipment (m : Manager) (k : AttributeKey) (value : Int) :
    Bool × Manager × List Event :=
  if m.validate k value then
    let r := propagate m k (fun mm =>
      { mm with equipmentBonus := fun j =>
          if j = k then value else mm.equipmentBonus j })
    (true, r.1, r.2)
  else (false, m, [])

/-- Embeds `setEffect(key, value)`: validate, then store the value (unclamped)
into the effect cell. -/
def Manager.setEffect (m : Manager) (k : AttributeKey) (value : Int) :
    Bool × Manager × List Event :=
  if m.validate k value then
    let r := propagate m k (fun mm =>
      { mm with effectBonus := fun j =>
          if j = k then value else mm.effectBonus j })
    (true, r.1, r.2)
  else (false, m, [])

/-- Embeds `modify(key, delta)`: reads the raw base cell and delegates to
`setBase(key, current + delta)`. -/
def Manager.modify (m : Manager) (k : AttributeKey) (delta : Int) :
    Bool × Manager × List Event :=
  m.setBase k (m.baseValue k + delta)

/-- Embeds `exportData()`: snapshot of the three raw cells per key. -/
def Manager.exportData (m : Manager) : AttributeKey → AttributeValues :=
  fun k => ⟨m.baseValue k, m.equipmentBonus k, m.effectBonus k⟩

/-- One iteration of the `loadData` loop body for a provided key:
`setBase(k, v.baseValue ?? 0)`, then `setEquipment`, then `setEffect`
(return values discarded). -/
def Manager.loadKey (m : Manager) (k : AttributeKey) (v : PartialValues) :
    Manager × List Event :=
  let r1 := m.setBase k (v.baseValue.getD 0)
  let r2 := r1.2.1.setEquipment k (v.equipmentBonus.getD 0)
  let r3 := r2.2.1.setEffect k (v.effectBonus.getD 0)
  (r3.2.1, r1.2.2 ++ r2.2.2 ++ r3.2.2)

/-- One step of the `loadData` iteration: a key present in `data` goes
through `loadKey`, an absent key is skipped (`pairs` only visits present
keys). -/
def loadStep (data : AttributeKey → Option PartialValues)
    (acc : Manager × List Event) (k : AttributeKey) : Manager × List Event :=
  match data k with
  | some v =>
      let r := acc.1.loadKey k v
      (r.1, acc.2 ++ r.2)
  | none => acc

/-- Embeds `loadData(data)`: iterates the provided keys (`pairs(data)`) and
applies the three setters to each.  Iteration is taken in the canonical
key order; the per-key updates touch disjoint cells, so the final state
does not depend on the order. -/
def Manager.loadData (m : Manager)
    (data : AttributeKey → Option PartialValues) : Manager × List Event :=
  ATTRIBUTE_KEYS.foldl (loadStep data) (m, [])

/-- Embeds `destroy()`: runs an empty statement over the `observers` array
(`forEach(obs => \x7b\x7d)`) and clears the array.  The `onChange`
subscriptions on the total cells are never disconnected (their disconnect
functions were discarded in `setupObservers`), so `connected` is left
untouched. -/
def Manager.destroy (m : Manager) : Manager :=
  { m with observers := [] }

/-- Embeds `SimpleAttributeManager.validate`: accepts exactly the values within
`[config.minValue, config.maxValue]`. -/
def simpleValidate (config : AttributeManagerConfig) :
    AttributeKey → Int → Bool :=
  fun _ value => config.minValue ≤ value && value ≤ config.maxValue

/-- Modelled from the spec, for comparison with `Manager.loadData`: the
specification describes the load as applying each provided key's three
sub-fields independently through the same validation gate as direct setter
calls — a rejected sub-field stays unchanged while the other sub-fields
and the other keys still apply.  The record gives the expected raw cell
contents of key `k` (the shape `exportData` reads) after loading `data`
into `m`. -/
def loadDataSpec (m : Manager) (data : AttributeKey → Option PartialValues)
    (k : AttributeKey) : AttributeValues :=
  match data k with
  | none => m.exportData k
  | some v =>
      ⟨if m.validate k (v.baseValue.getD 0)
          then clamp (v.baseValue.getD 0) m.config.minValue m.config.maxValue
          else m.baseValue k,
        if m.validate k (v.equipmentBonus.getD 0) then v.equipmentBonus.getD 0
          else m.equipmentBonus k,
        if m.validate k (v.effectBonus.getD 0) then v.effectBonus.getD 0
          else m.effectBonus k⟩

end Compact

end RpgAttributes

namespace RpgAttributes

namespace Compact

theorem setBase_fst (m : Manager) (k : AttributeKey) (v : Int) :
    (m.setBase k v).1 = m.validate k v := by
  unfold Manager.setBase
  cases h : m.validate k v <;> simp [h]

theorem setBase_config (m : Manager) (k : AttributeKey) (v : Int) :
    (m.setBase k v).2.1.config = m.config := by
  unfold Manager.setBase propagate
  cases h : m.validate k v <;> simp [h]
  split <;> rfl

theorem setBase_validate (m : Manager) (k : AttributeKey) (v : Int) :
    (m.setBase k v).2.1.validate = m.validate := by
  unfold Manager.setBase propagate
  cases h : m.validate k v <;> simp [h]
  split <;> rfl

theorem setBase_connected (m : Manager) (k : AttributeKey) (v : Int) :
    (m.setBase k v).2.1.connected = m.connected := by
  unfold Manager.setBase propagate
  cases h : m.validate k v <;> simp [h]
  split <;> rfl

theorem setBase_observers (m : Manager) (k : AttributeKey) (v : Int) :
    (m.setBase k v).2.1.observers = m.observers := by
  unfold Manager.setBase propagate
  cases h : m.validate k v <;> simp [h]
  split <;> rfl

theorem setBase_equipmentBonus (m : Manager) (k : AttributeKey) (v : Int) :
    (m.setBase k v).2.1.equipmentBonus = m.equipmentBonus := by
  unfold Manager.setBase propagate
  cases h : m.validate k v <;> simp [h]
  split <;> rfl

theorem setBase_effectBonus (m : Manager) (k : AttributeKey) (v : Int) :
    (m.setBase k v).2.1.effectBonus = m.effectBonus := by
  unfold Manager.setBase propagate
  cases h : m.validate k v <;> simp [h]
  split <;> rfl

theorem setBase_baseValue (m : Manager) (k : AttributeKey) (v : Int)
    (j : AttributeKey) :
    (m.setBase k v).2.1.baseValue j =
      if m.validate k v = true ∧ j = k
      then clamp v m.config.minValue m.config.maxValue
      else m.baseValue j := by
  unfold Manager.setBase propagate
  cases h : m.validate k v <;> simp [h]
  split <;> rfl

theorem setEquipment_fst (m : Manager) (k : AttributeKey) (v : Int) :
    (m.setEquipment k v).1 = m.validate k v := by
  unfold Manager.setEquipment
  cases h : m.validate k v <;> simp [h]

theorem setEquipment_config (m : Manager) (k : AttributeKey) (v : Int) :
    (m.setEquipment k v).2.1.config = m.config := by
  unfold Manager.setEquipment propagate
  cases h : m.validate k v <;> simp [h]
  split <;> rfl

theorem setEquipment_validate (m : Manager) (k : AttributeKey) (v : Int) :
    (m.setEquipment k v).2.1.validate = m.validate := by
  unfold Manager.setEquipment propagate
  cases h : m.validate k v <;> simp [h]
  split <;> rfl

theorem setEquipment_connected (m : Manager) (k : AttributeKey) (v : Int) :
    (m.setEquipment k v).2.1.connected = m.connected := by
  unfold Manager.setEquipment propagate
  cases h : m.validate k v <;> simp [h]
  split <;> rfl

theorem setEquipment_observers (m : Manager) (k : AttributeKey) (v : Int) :
    (m.setEquipment k v).2.1.observers = m.observers := by
  unfold Manager.setEquipment propagate
  cases h : m.validate k v <;> simp [h]
  split <;> rfl

theorem setEquipment_baseValue (m : Manager) (k : AttributeKey) (v : Int) :
    (m.setEquipment k v).2.1.baseValue = m.baseValue := by
  unfold Manager.setEquipment propagate
  cases h : m.validate k v <;> simp [h]
  split <;> rfl

theorem setEquipment_effectBonus (m : Manager) (k : AttributeKey) (v : Int) :
    (m.setEquipment k v).2.1.effectBonus = m.effectBonus := by
  unfold Manager.setEquipment propagate
  cases h : m.validate k v <;> simp [h]
  split <;> rfl

theorem setEquipment_equipmentBonus (m : Manager) (k : AttributeKey) (v : Int)
    (j : AttributeKey) :
    (m.setEquipment k v).2.1.equipmentBonus j =
      if m.validate k v = true ∧ j = k then v else m.equipmentBonus j := by
  unfold Manager.setEquipment propagate
  cases h : m.validate k v <;> simp [h]
  split <;> rfl

theorem setEffect_fst (m : Manager) (k : AttributeKey) (v : Int) :
    (m.setEffect k v).1 = m.validate k v := by
  unfold Manager.setEffect
  cases h : m.validate k v <;> simp [h]

theorem setEffect_config (m : Manager) (k : AttributeKey) (v : Int) :
    (m.setEffect k v).2.1.config = m.config := by
  unfold Manager.setEffect propagate
  cases h : m.validate k v <;> simp [h]
  split <;> rfl

theorem setEffect_validate (m : Manager) (k : AttributeKey) (v : Int) :
    (m.setEffect k v).2.1.validate = m.validate := by
  unfold Manager.setEffect propagate
  cases h : m.validate k v <;> simp [h]
  split <;> rfl

theorem setEffect_connected (m : Manager) (k : AttributeKey) (v : Int) :
    (m.setEffect k v).2.1.connected = m.connected := by
  unfold Manager.setEffect propagate
  cases h : m.validate k v <;> simp [h]
  split <;> rfl

theorem setEffect_observers (m : Manager) (k : AttributeKey) (v : Int) :
    (m.setEffect k v).2.1.observers = m.observers := by
  unfold Manager.setEffect propagate
  cases h : m.validate k v <;> simp [h]
  split <;> rfl

theorem setEffect_baseValue (m : Manager) (k : AttributeKey) (v : Int) :
    (m.setEffect k v).2.1.baseValue = m.baseValue := by
  unfold Manager.setEffect propagate
  cases h : m.validate k v <;> simp [h]
  split <;> rfl

theorem setEffect_equipmentBonus (m : Manager) (k : AttributeKey) (v : Int) :
    (m.setEffect k v).2.1.equipmentBonus = m.equipmentBonus := by
  unfold Manager.setEffect propagate
  cases h : m.validate k v <;> simp [h]
  split <;> rfl

theorem setEffect_effectBonus (m : Manager) (k : AttributeKey) (v : Int)
    (j : AttributeKey) :
    (m.setEffect k v).2.1.effectBonus j =
      if m.validate k v = true ∧ j = k then v else m.effectBonus j := by
  unfold Manager.setEffect propagate
  cases h : m.validate k v <;> simp [h]
  split <;> rfl

theorem loadKey_config (m : Manager) (k : AttributeKey) (v : PartialValues) :
    (m.loadKey k v).1.config = m.config := by
  simp [Manager.loadKey, setEffect_config, setEquipment_config, setBase_config]

theorem loadKey_validate (m : Manager) (k : AttributeKey) (v : PartialValues) :
    (m.loadKey k v).1.validate = m.validate := by
  simp [Manager.loadKey, setEffect_validate, setEquipment_validate,
    setBase_validate]

theorem loadKey_connected (m : Manager) (k : AttributeKey) (v : PartialValues) :
    (m.loadKey k v).1.connected = m.connected := by
  simp [Manager.loadKey, setEffect_connected, setEquipment_connected,
    setBase_connected]

theorem loadKey_observers (m : Manager) (k : AttributeKey) (v : PartialValues) :
    (m.loadKey k v).1.observers = m.observers := by
  simp [Manager.loadKey, setEffect_observers, setEquipment_observers,
    setBase_observers]

theorem loadKey_baseValue (m : Manager) (k : AttributeKey) (v : PartialValues)
    (j : AttributeKey) :
    (m.loadKey k v).1.baseValue j =
      if m.validate k (v.baseValue.getD 0) = true ∧ j = k
      then clamp (v.baseValue.getD 0) m.config.minValue m.config.maxValue
      else m.baseValue j := by
  simp [Manager.loadKey, setEffect_baseValue, setEquipment_baseValue,
    setBase_baseValue]

theorem loadKey_equipmentBonus (m : Manager) (k : AttributeKey)
    (v : PartialValues) (j : AttributeKey) :
    (m.loadKey k v).1.equipmentBonus j =
      if m.validate k (v.equipmentBonus.getD 0) = true ∧ j = k
      then v.equipmentBonus.getD 0
      else m.equipmentBonus j := by
  simp [Manager.loadKey, setEffect_equipmentBonus, setEquipment_equipmentBonus,
    setBase_validate, setBase_equipmentBonus]

theorem loadKey_effectBonus (m : Manager) (k : AttributeKey)
    (v : PartialValues) (j : AttributeKey) :
    (m.loadKey k v).1.effectBonus j =
      if m.validate k (v.effectBonus.getD 0) = true ∧ j = k
      then v.effectBonus.getD 0
      else m.effectBonus j := by
  simp [Manager.loadKey, setEffect_effectBonus, setEquipment_validate,
    setBase_validate, setEquipment_effectBonus, setBase_effectBonus]

theorem loadStep_eq_none {data : AttributeKey → Option PartialValues}
    {k : AttributeKey} (h : data k = none) (acc : Manager × List Event) :
    loadStep data acc k = acc := by
  simp [loadStep, h]

theorem loadStep_eq_some {data : AttributeKey → Option PartialValues}
    {k : AttributeKey} {v : PartialValues} (h : data k = some v)
    (acc : Manager × List Event) :
    loadStep data acc k =
      ((acc.1.loadKey k v).1, acc.2 ++ (acc.1.loadKey k v).2) := by
  simp [loadStep, h]

theorem loadStep_config (data : AttributeKey → Option PartialValues)
    (acc : Manager × List Event) (k : AttributeKey) :
    (loadStep data acc k).1.config = acc.1.config := by
  cases h : data k <;> simp [loadStep, h, loadKey_config]

theorem loadStep_validate (data : AttributeKey → Option PartialValues)
    (acc : Manager × List Event) (k : AttributeKey) :
    (loadStep data acc k).1.validate = acc.1.validate := by
  cases h : data k <;> simp [loadStep, h, loadKey_validate]

theorem loadStep_connected (data : AttributeKey → Option PartialValues)
    (acc : Manager × List Event) (k : AttributeKey) :
    (loadStep data acc k).1.connected = acc.1.connected := by
  cases h : data k <;> simp [loadStep, h, loadKey_connected]

theorem loadStep_observers (data : AttributeKey → Option PartialValues)
    (acc : Manager × List Event) (k : AttributeKey) :
    (loadStep data acc k).1.observers = acc.1.observers := by
  cases h : data k <;> simp [loadStep, h, loadKey_observers]

theorem loadStep_baseValue_ne {j k : AttributeKey} (h : j ≠ k)
    (data : AttributeKey → Option PartialValues)
    (acc : Manager × List Event) :
    (loadStep data acc k).1.baseValue j = acc.1.baseValue j := by
  cases hd : data k <;> simp [loadStep, hd, loadKey_baseValue, h]

theorem loadStep_equipmentBonus_ne {j k : AttributeKey} (h : j ≠ k)
    (data : AttributeKey → Option PartialValues)
    (acc : Manager × List Event) :
    (loadStep data acc k).1.equipmentBonus j = acc.1.equipmentBonus j := by
  cases hd : data k <;> simp [loadStep, hd, loadKey_equipmentBonus, h]

theorem loadStep_effectBonus_ne {j k : AttributeKey} (h : j ≠ k)
    (data : AttributeKey → Option PartialValues)
    (acc : Manager × List Event) :
    (loadStep data acc k).1.effectBonus j = acc.1.effectBonus j := by
  cases hd : data k <;> simp [loadStep, hd, loadKey_effectBonus, h]

theorem loadData_state (m : Manager)
    (data : AttributeKey → Option PartialValues) (k : AttributeKey) :
    (m.loadData data).1.exportData k = loadDataSpec m data k := by
  rcases hd : data k with _ | v
  · cases k <;>
      simp [Manager.loadData, ATTRIBUTE_KEYS, List.foldl, Manager.exportData,
        loadDataSpec, hd, loadStep_eq_none hd, loadStep_validate,
        loadStep_config, loadStep_baseValue_ne, loadStep_equipmentBonus_ne,
        loadStep_effectBonus_ne]
  · cases k <;>
      simp [Manager.loadData, ATTRIBUTE_KEYS, List.foldl, Manager.exportData,
        loadDataSpec, hd, loadStep_eq_some hd, loadStep_validate,
        loadStep_config, loadStep_baseValue_ne, loadStep_equipmentBonus_ne,
        loadStep_effectBonus_ne, loadKey_baseValue, loadKey_equipmentBonus,
        loadKey_effectBonus]

theorem propagate_fst_total (m : Manager) (k : AttributeKey)
    (u : Manager → Manager) (j : AttributeKey) :
    (propagate m k u).1.total j = (u m).total j := by
  unfold propagate
  dsimp only
  split <;> rfl

theorem propagate_snd_nil (m : Manager) (k : AttributeKey)
    (u : Manager → Manager) (h : (u m).total k = m.total k) :
    (propagate m k u).2 = [] := by
  unfold propagate
  dsimp only
  rw [if_neg]
  intro hc
  exact hc.2 h

theorem setBase_events_nil (m : Manager) (k : AttributeKey) (v : Int)
    (h : (m.setBase k v).2.1.total k = m.total k) :
    (m.setBase k v).2.2 = [] := by
  cases hv : m.validate k v
  · simp [Manager.setBase, hv]
  · simp only [Manager.setBase, hv, if_true] at h ⊢
    exact propagate_snd_nil m k _ ((propagate_fst_total m k _ k).symm.trans h)

theorem setEquipment_events_nil (m : Manager) (k : AttributeKey) (v : Int)
    (h : (m.setEquipment k v).2.1.total k = m.total k) :
    (m.setEquipment k v).2.2 = [] := by
  cases hv : m.validate k v
  · simp [Manager.setEquipment, hv]
  · simp only [Manager.setEquipment, hv, if_true] at h ⊢
    exact propagate_snd_nil m k _ ((propagate_fst_total m k _ k).symm.trans h)

theorem setEffect_events_nil (m : Manager) (k : AttributeKey) (v : Int)
    (h : (m.setEffect k v).2.1.total k = m.total k) :
    (m.setEffect k v).2.2 = [] := by
  cases hv : m.validate k v
  · simp [Manager.setEffect, hv]
  · simp only [Manager.setEffect, hv, if_true] at h ⊢
    exact propagate_snd_nil m k _ ((propagate_fst_total m k _ k).symm.trans h)

end Compact

/-- **C8.** For all integers `x, lo, hi` with `lo ≤ hi`, both clamp
utilities (`clampAttributeValue` of the shared module and `clamp` of the
compact core) are idempotent and return a value in `[lo, hi]`; concretely
`clampAttributeValue(1050, 0, 999) = 999` and
`clampAttributeValue(-5, 0, 999) = 0`. -/
theorem clamp_idempotent_and_bounded (x lo hi : Int) (h : lo ≤ hi) :
    Shared.clampAttributeValue (Shared.clampAttributeValue x lo hi) lo hi =
      Shared.clampAttributeValue x lo hi ∧
    lo ≤ Shared.clampAttributeValue x lo hi ∧
    Shared.clampAttributeValue x lo hi ≤ hi ∧
    Compact.clamp (Compact.clamp x lo hi) lo hi = Compact.clamp x lo hi ∧
    lo ≤ Compact.clamp x lo hi ∧
    Compact.clamp x lo hi ≤ hi ∧
    Shared.clampAttributeValue 1050 0 999 = 999 ∧
    Shared.clampAttributeValue (-5) 0 999 = 0 := by
  unfold Shared.clampAttributeValue Compact.clamp
  refine ⟨?_, ?_, ?_, ?_, ?_, ?_, by decide, by decide⟩ <;> omega

/-- Witness for `clamp_idempotent_and_bounded` at `x = 1050`, `lo = 0`,
`hi = 999`. -/
theorem clamp_idempotent_and_bounded_witness :
    (0 : Int) ≤ 999 ∧ (0 : Int) ≤ Shared.clampAttributeValue 1050 0 999 :=
  ⟨by decide, (clamp_idempotent_and_bounded 1050 0 999 (by decide)).2.1⟩

/-- **C7.** For every overrides argument and every key, the key is one of
the five canonical keys, and both state builders
(`createAttributesState` and `createState`) produce an entry whose
`totalValue` is the sum of that entry's own three values and whose `meta`
is the catalog record; the builders are plain functions of the overrides,
hence deterministic. -/
theorem createState_five_keys_totals
    (overrides : AttributeKey → Option PartialValues) (key : AttributeKey) :
    key ∈ ATTRIBUTE_KEYS ∧
    (Shared.createAttributesState overrides key).totalValue =
      (Shared.createAttributesState overrides key).values.baseValue +
        (Shared.createAttributesState overrides key).values.equipmentBonus +
        (Shared.createAttributesState overrides key).values.effectBonus ∧
    (Shared.createAttributesState overrides key).meta =
      Shared.AttributeCatalog key ∧
    (Compact.createState overrides key).totalValue =
      (Compact.createState overrides key).values.baseValue +
        (Compact.createState overrides key).values.equipmentBonus +
        (Compact.createState overrides key).values.effectBonus ∧
    (Compact.createState overrides key).meta =
      some (Compact.AttributeCatalog key) := by
  refine ⟨by cases key <;> simp [ATTRIBUTE_KEYS], ?_, ?_, ?_, ?_⟩ <;>
    simp [Shared.createAttributesState, Shared.createAttributeEntry,
      Shared.calculateTotalAttributeValue, Compact.createState,
      Compact.calculateTotal]

/-- **C6.** `updateAttributeEntry(state, key, newValues)` is a pure
transform: in this embedding it takes the state mapping by value and
returns only a fresh entry, so `state key` is trivially unchanged by the
call; the returned entry keeps the old `meta`, carries the old values
overwritten by the provided partial fields, and has `totalValue`
recomputed as the sum of the merged fields. -/
theorem updateAttributeEntry_pure_merge (state : Shared.AttributesState)
    (key : AttributeKey) (newValues : PartialValues) :
    (Shared.updateAttributeEntry state key newValues).meta =
      (state key).meta ∧
    (Shared.updateAttributeEntry state key newValues).values =
      ⟨newValues.baseValue.getD (state key).values.baseValue,
       newValues.equipmentBonus.getD (state key).values.equipmentBonus,
       newValues.effectBonus.getD (state key).values.effectBonus⟩ ∧
    (Shared.updateAttributeEntry state key newValues).totalValue =
      (Shared.updateAttributeEntry state key newValues).values.baseValue +
        (Shared.updateAttributeEntry state key newValues).values.equipmentBonus +
        (Shared.updateAttributeEntry state key newValues).values.effectBonus := by
  refine ⟨rfl, rfl, ?_⟩
  simp [Shared.updateAttributeEntry, Shared.calculateTotalAttributeValue]

/-- **C3.** Whenever the `validate` hook rejects `(k, v)`, each of
`setBase`/`setEquipment`/`setEffect` returns `false`, fires no hook
(empty event list), and returns the manager state exactly as it was (the
very same record, so every cell and every derived total is unchanged). -/
theorem setters_reject_without_mutation (m : Compact.Manager)
    (k : AttributeKey) (v : Int) (h : m.validate k v = false) :
    m.setBase k v = (false, m, []) ∧
    m.setEquipment k v = (false, m, []) ∧
    m.setEffect k v = (false, m, []) := by
  refine ⟨?_, ?_, ?_⟩ <;>
    simp [Compact.Manager.setBase, Compact.Manager.setEquipment,
      Compact.Manager.setEffect, h]

/-- Witness for `setters_reject_without_mutation`: with a `validate` that
always returns false, `setBase("strength", 50)` returns `false` and
`getValue("strength")` is unchanged. -/
theorem setters_reject_without_mutation_witness :
    ((Compact.mkManager ⟨fun _ => none, false, 9999, 0⟩ (fun _ _ => false)).setBase
        .strength 50).1 = false ∧
    ((Compact.mkManager ⟨fun _ => none, false, 9999, 0⟩ (fun _ _ => false)).setBase
        .strength 50).2.1.getValue .strength =
      (Compact.mkManager ⟨fun _ => none, false, 9999, 0⟩
          (fun _ _ => false)).getValue .strength := by
  have h := setters_reject_without_mutation
    (Compact.mkManager ⟨fun _ => none, false, 9999, 0⟩ (fun _ _ => false))
    .strength 50 rfl
  exact ⟨by rw [h.1], by rw [h.1]⟩

/-- **C10.** The constructor stores a configured initial base value into
its cell without validation and without clamping: with
`minValue = 0`, `maxValue = 100` and `initialValues.vitality = 500`, the
fresh manager's raw base cell holds `500` (outside the clamp range, which
would clamp it to `100`), and the same manager's `setBase` — whose
`SimpleAttributeManager` validation accepts only in-range values — would
reject that very value. -/
theorem constructor_bypasses_validation_and_clamp :
    (Compact.mkManager
        ⟨fun k => if k = .vitality then some 500 else none, false, 100, 0⟩
        (Compact.simpleValidate
          ⟨fun k => if k = .vitality then some 500 else none, false, 100, 0⟩)).baseValue
        .vitality = 500 ∧
    Compact.clamp 500 0 100 = 100 ∧
    ((Compact.mkManager
        ⟨fun k => if k = .vitality then some 500 else none, false, 100, 0⟩
        (Compact.simpleValidate
          ⟨fun k => if k = .vitality then some 500 else none, false, 100, 0⟩)).setBase
        .vitality 500).1 = false := by
  exact ⟨rfl, by decide, by decide⟩

/-- **C1** (code bug). The spec promises that `destroy()` releases all
observation subscriptions so that no further change notifications fire.
The code's `destroy()` only runs an empty statement over the `observers`
array and clears it; the disconnect functions returned by
`observer.onChange` in `setupObservers` were discarded, so the
subscriptions on the total cells stay attached.  Concretely: on a
destroyed manager (observers array empty), `setBase("vitality", 5)` still
emits `onAttributeChanged("vitality", 0, 5)`. -/
theorem setBase_after_destroy_still_fires :
    ((Compact.mkManager ⟨fun _ => none, false, 9999, 0⟩
        (fun _ _ => true)).destroy.setBase .vitality 5).2.2 =
      [Compact.Event.attributeChanged .vitality 0 5] ∧
    (Compact.mkManager ⟨fun _ => none, false, 9999, 0⟩
        (fun _ _ => true)).destroy.observers = [] := by
  exact ⟨by decide, rfl⟩

/-- **C2** (counterexample to the claim as stated).  A manager constructed
with `minValue = 0`, `maxValue = 100`, initial vitality base `500` (the
constructor neither validates nor clamps) and an always-accepting
`validate` has `baseValue = 500`; after `loadData(exportData())` the base
cell holds `clamp(500, 0, 100) = 100` — the round trip changed an
underlying field. -/
theorem roundtrip_changes_base_counterexample :
    (Compact.mkManager
        ⟨fun k => if k = .vitality then some 500 else none, false, 100, 0⟩
        (fun _ _ => true)).baseValue .vitality = 500 ∧
    ((Compact.mkManager
        ⟨fun k => if k = .vitality then some 500 else none, false, 100, 0⟩
        (fun _ _ => true)).loadData
          (fun j => some
            (((Compact.mkManager
                ⟨fun k => if k = .vitality then some 500 else none, false,
                  100, 0⟩
                (fun _ _ => true)).exportData j).toPartial))).1.baseValue
        .vitality = 100 := by
  exact ⟨rfl, by decide⟩

/-- **C2** (amended).  `loadData(exportData())` always leaves every
`equipmentBonus` and `effectBonus` field unchanged; the `baseValue` field
of a key is left unchanged when `validate` rejects it, and is replaced by
its clamp to `[minValue, maxValue]` when `validate` accepts it — so it too
is unchanged whenever it already is a fixed point of the clamp (in
particular whenever it lies within `[minValue, maxValue]`). -/
theorem roundtrip_characterization (m : Compact.Manager) (k : AttributeKey) :
    ((m.loadData (fun j => some ((m.exportData j).toPartial))).1.equipmentBonus
        k = m.equipmentBonus k) ∧
    ((m.loadData (fun j => some ((m.exportData j).toPartial))).1.effectBonus
        k = m.effectBonus k) ∧
    ((m.loadData (fun j => some ((m.exportData j).toPartial))).1.baseValue k =
      if m.validate k (m.baseValue k) = true
      then Compact.clamp (m.baseValue k) m.config.minValue m.config.maxValue
      else m.baseValue k) := by
  have h := Compact.loadData_state m
    (fun j => some ((m.exportData j).toPartial)) k
  refine ⟨?_, ?_, ?_⟩
  · have he := congrArg AttributeValues.equipmentBonus h
    simpa [Compact.Manager.exportData, Compact.loadDataSpec,
      AttributeValues.toPartial, ite_self] using he
  · have hf := congrArg AttributeValues.effectBonus h
    simpa [Compact.Manager.exportData, Compact.loadDataSpec,
      AttributeValues.toPartial, ite_self] using hf
  · have hb := congrArg AttributeValues.baseValue h
    simpa [Compact.Manager.exportData, Compact.loadDataSpec,
      AttributeValues.toPartial] using hb

/-- **C4.** On a manager built with initial vitality 10, bounds
`[0, 100]` and in-range validation: `setEquipment("vitality", 5)` returns
true, makes `getValue("vitality")` equal 15, and fires the hook exactly
once, with `(key = vitality, old = 10, new = 15)` and no persist call
(`autoPersist` off); moreover, for every manager and every write through
any of the three setters, if the clamped total after the write equals the
total before it, no notification fires at all. -/
theorem setEquipment_scenario_and_no_fire :
    (((Compact.mkManager
        ⟨fun k => if k = .vitality then some 10 else none, false, 100, 0⟩
        (Compact.simpleValidate
          ⟨fun k => if k = .vitality then some 10 else none, false, 100,
            0⟩)).setEquipment .vitality 5).1 = true ∧
      ((Compact.mkManager
        ⟨fun k => if k = .vitality then some 10 else none, false, 100, 0⟩
        (Compact.simpleValidate
          ⟨fun k => if k = .vitality then some 10 else none, false, 100,
            0⟩)).setEquipment .vitality 5).2.1.getValue .vitality = 15 ∧
      ((Compact.mkManager
        ⟨fun k => if k = .vitality then some 10 else none, false, 100, 0⟩
        (Compact.simpleValidate
          ⟨fun k => if k = .vitality then some 10 else none, false, 100,
            0⟩)).setEquipment .vitality 5).2.2 =
        [Compact.Event.attributeChanged .vitality 10 15]) ∧
    (∀ (m : Compact.Manager) (k : AttributeKey) (v : Int),
      (m.setBase k v).2.1.total k = m.total k → (m.setBase k v).2.2 = []) ∧
    (∀ (m : Compact.Manager) (k : AttributeKey) (v : Int),
      (m.setEquipment k v).2.1.total k = m.total k →
        (m.setEquipment k v).2.2 = []) ∧
    (∀ (m : Compact.Manager) (k : AttributeKey) (v : Int),
      (m.setEffect k v).2.1.total k = m.total k →
        (m.setEffect k v).2.2 = []) := by
  refine ⟨⟨by decide, by decide, by decide⟩, ?_, ?_, ?_⟩
  · exact fun m k v h => Compact.setBase_events_nil m k v h
  · exact fun m k v h => Compact.setEquipment_events_nil m k v h
  · exact fun m k v h => Compact.setEffect_events_nil m k v h

/-- Witness for `setEquipment_scenario_and_no_fire`: writing the value the
equipment cell already holds leaves the total unchanged and fires
nothing. -/
theorem setEquipment_scenario_and_no_fire_witness :
    ((Compact.mkManager ⟨fun _ => none, false, 100, 0⟩
        (fun _ _ => true)).setEquipment .vitality 0).2.2 = [] :=
  setEquipment_scenario_and_no_fire.2.2.1
    (Compact.mkManager ⟨fun _ => none, false, 100, 0⟩ (fun _ _ => true))
    .vitality 0 (by decide)

/-- **C5.** `loadData` pushes each provided key's three sub-fields
independently through the same validation gate as direct setter calls:
the resulting raw cells of every key agree with `loadDataSpec`, the
spec-side field-by-field description (a rejected sub-field keeps its old
cell value while the other sub-fields and the other keys still apply, and
an absent key is untouched) — there is no atomicity across the three
fields of one key, nor across keys. -/
theorem loadData_fieldwise_independent (m : Compact.Manager)
    (data : AttributeKey → Option PartialValues) (k : AttributeKey) :
    (m.loadData data).1.exportData k = Compact.loadDataSpec m data k :=
  Compact.loadData_state m data k

/-- **C9.** An accepted `setBase` always stores the clamped value, so the
base cell of the written key lands in `[minValue, maxValue]` whenever the
bounds are ordered; `setEquipment` and `setEffect` store the accepted
value raw, so with an always-accepting `validate` and bounds `[0, 100]`
the equipment cell can hold `500` and the effect cell `-7`, both outside
the range. -/
theorem setBase_clamps_but_bonuses_unclamped :
    (∀ (m : Compact.Manager) (k : AttributeKey) (v : Int),
      m.config.minValue ≤ m.config.maxValue → m.validate k v = true →
        m.config.minValue ≤ (m.setBase k v).2.1.baseValue k ∧
          (m.setBase k v).2.1.baseValue k ≤ m.config.maxValue) ∧
    ((Compact.mkManager ⟨fun _ => none, false, 100, 0⟩
        (fun _ _ => true)).setEquipment .vitality 500).1 = true ∧
    ((Compact.mkManager ⟨fun _ => none, false, 100, 0⟩
        (fun _ _ => true)).setEquipment .vitality
        500).2.1.equipmentBonus .vitality = 500 ∧
    ((Compact.mkManager ⟨fun _ => none, false, 100, 0⟩
        (fun _ _ => true)).setEffect .vitality
        (-7)).2.1.effectBonus .vitality = -7 ∧
    ¬ ((500 : Int) ≤ 100) ∧ ¬ ((0 : Int) ≤ (-7 : Int)) := by
  refine ⟨?_, by decide, by decide, by decide, by decide, by decide⟩
  intro m k v hle hv
  rw [Compact.setBase_baseValue]
  simp only [hv, true_and, if_pos]
  unfold Compact.clamp
  constructor
  · exact le_max_left _ _
  · exact max_le hle (min_le_left _ _)

/-- Witness for `setBase_clamps_but_bonuses_unclamped`: an accepted
in-bounds `setBase` lands in the range `[0, 100]`. -/
theorem setBase_clamps_but_bonuses_unclamped_witness :
    (0 : Int) ≤ ((Compact.mkManager ⟨fun _ => none, false, 100, 0⟩
        (fun _ _ => true)).setBase .vitality 42).2.1.baseValue .vitality ∧
    ((Compact.mkManager ⟨fun _ => none, false, 100, 0⟩
        (fun _ _ => true)).setBase .vitality 42).2.1.baseValue .vitality ≤
      100 :=
  setBase_clamps_but_bonuses_unclamped.1
    (Compact.mkManager ⟨fun _ => none, false, 100, 0⟩ (fun _ _ => true))
    .vitality 42 (by decide) rfl

end RpgAttributes
